import Mathlib

/-!
Shallow embedding of the pwclient dual-backend API layer
(`pwclient/api.py`, `pwclient/patches.py`, `pwclient/projects.py`) and
proofs about it.

The embedding models Python semantics explicitly:
  * truthiness of optional strings/ints and of JSON values,
  * dictionaries built by the code as fixed-shape structures (`Filters`)
    or ordered association lists (`JVal.obj`),
  * exceptions and `sys.exit` as an `Except`-style result,
  * text written to standard error and remote interactions (XML-RPC calls
    and HTTP requests) as an accumulated trace.

Server responses are supplied as parameters (an `XmlRpcClient` record of
response functions for the legacy backend, an `HttpServer` oracle for the
resource-oriented backend), so every theorem quantifies over the remote
side exactly as far as the property requires.
-/

namespace Pwclient

/-- Python truthiness of an optional string (`None` and `''` are falsy). -/
def truthyS : Option String → Bool
  | none => false
  | some s => s ≠ ""

/-- Python truthiness of an optional integer (`None` and `0` are falsy). -/
def truthyI : Option Int → Bool
  | none => false
  | some i => i ≠ 0

/-- Model of Python `str.lower()` (ASCII case mapping). -/
def pyLower (s : String) : String :=
  String.mk (s.data.map Char.toLower)

/-- Model of Python `s.startswith(t)`. -/
def pyStartswith (s t : String) : Bool :=
  List.isPrefixOf t.data s.data

/-- Model of `state.lower().replace(' ', '-')` from `REST.patch_list` /
`REST.patch_set`; the replace is character-wise because both arguments
are single characters. -/
def slugify (s : String) : String :=
  String.mk ((pyLower s).data.map fun ch => if ch = ' ' then '-' else ch)

/-- JSON values, the parse result of a REST response body. -/
inductive JVal where
  | null : JVal
  | bool : Bool → JVal
  | int : Int → JVal
  | str : String → JVal
  | arr : List JVal → JVal
  | obj : List (String × JVal) → JVal

/-- Python truthiness of a JSON value. -/
def JVal.truthy : JVal → Bool
  | .null => false
  | .bool b => b
  | .int i => i != 0
  | .str s => s != ""
  | .arr l => !l.isEmpty
  | .obj kvs => !kvs.isEmpty

/-- Exceptions raised (or `sys.exit` calls made) by the modelled code. -/
inductive PyAbort where
  | configError (msg : String)
  | apiError (msg : String)
  | notImplementedError (msg : String)
  | typeError (msg : String)
  | keyError (key : String)
  | indexError (msg : String)
  | valueError (msg : String)
  | fault (msg : String)
  | exit (code : Int)
deriving DecidableEq

/-- Python `obj[key]` on a parsed JSON value: `KeyError` when the key is
absent, `TypeError` when the value is not a dictionary.  The dictionaries
built here never repeat a key, so first-match lookup is exact. -/
def JVal.getItem : JVal → String → Except PyAbort JVal
  | .obj kvs, key =>
    match kvs.find? fun kv => kv.1 == key with
    | some kv => .ok kv.2
    | none => .error (.keyError key)
  | .null, _ => .error (.typeError "NoneType is not subscriptable")
  | _, _ => .error (.typeError "value is not subscriptable")

/-- Python `obj.get(key)` with the `None` default; the source only applies
it to parsed dictionaries. -/
def JVal.get : JVal → String → JVal
  | .obj kvs, key =>
    match kvs.find? fun kv => kv.1 == key with
    | some kv => kv.2
    | none => .null
  | _, _ => .null

/-- Python iteration over a parsed JSON value (lists yield elements,
dictionaries yield their keys). -/
def JVal.pyIter : JVal → Except PyAbort (List JVal)
  | .arr l => .ok l
  | .obj kvs => .ok (kvs.map fun kv => JVal.str kv.1)
  | _ => .error (.typeError "value is not iterable")

/-- Python `len` on a parsed JSON value. -/
def JVal.pyLen : JVal → Except PyAbort Nat
  | .arr l => .ok l.length
  | .obj kvs => .ok kvs.length
  | .str s => .ok s.length
  | _ => .error (.typeError "value has no length")

/-- Python `l[i]` on a parsed JSON list. -/
def JVal.pyIndex : JVal → Nat → Except PyAbort JVal
  | .arr l, i =>
    match l.get? i with
    | some v => .ok v
    | none => .error (.indexError "list index out of range")
  | _, _ => .error (.typeError "value is not indexable")

/-- Python `v == {}` for a parsed JSON value (only the empty dictionary
compares equal to the empty dictionary). -/
def JVal.isEmptyDict : JVal → Bool
  | .obj kvs => kvs.isEmpty
  | _ => false

/-- Rendering of a JSON scalar inside an f-string; the name/email values
interpolated by the source are wire-format scalars. -/
def pyFormat : JVal → String
  | .null => "None"
  | .bool b => if b then "True" else "False"
  | .int i => toString i
  | .str s => s
  | .arr _ => "<list>"
  | .obj _ => "<dict>"

/-- Python `int(v)`: `ValueError` on a malformed string (the only case the
source catches), `TypeError` on non-numeric non-string values. -/
def pyInt : JVal → Except PyAbort Int
  | .int i => .ok i
  | .bool b => .ok (if b then 1 else 0)
  | .str s =>
    match s.toInt? with
    | some i => .ok i
    | none => .error (.valueError ("invalid literal for int: " ++ s))
  | _ => .error (.typeError "int argument must be a string or a number")

/-- The filter dictionary assembled by `XMLRPC.patch_list` (a Python dict
whose key set is fixed by the source; absent keys are `none`). -/
structure Filters where
  max_count : Option Int := none
  archived : Option Bool := none
  msgid : Option String := none
  name__icontains : Option String := none
  hash : Option String := none
  state_id : Option Int := none
  project_id : Option Int := none
  submitter_id : Option Int := none
  delegate_id : Option Int := none
deriving DecidableEq

/-- A state record as returned by the legacy `state_list` call. -/
structure StateRec where
  id : Int
  name : String
deriving DecidableEq

/-- A person record as returned by the legacy `person_list` call. -/
structure PersonRec where
  id : Int
  name : String
  email : String
deriving DecidableEq

/-- A project record as returned by the legacy `project_list` call. -/
structure ProjectRec where
  id : Int
  linkname : String
  name : String
deriving DecidableEq

/-- A value inside a legacy (XML-RPC) response dictionary; strings may be
transferred as `xmlrpclib.Binary` blobs. -/
inductive XVal where
  | str (s : String)
  | int (i : Int)
  | bool (b : Bool)
  | binary (bs : List UInt8)
deriving DecidableEq

/-- A raw legacy patch/check record: an ordered dictionary. -/
abbrev RawPatch := List (String × XVal)

/-- One remote interaction performed by a facade call, in order. -/
inductive RemoteCall where
  | xmlStateList (q : Option String) (mc : Int)
  | xmlProjectList (q : Option String) (mc : Int)
  | xmlPersonList (q : Option String) (mc : Int)
  | xmlPatchList (f : Filters)
  | xmlPatchGet (id : Int)
  | xmlCheckGet (id : Int)
  | httpGet (url : String)
deriving DecidableEq

/-- Result of running a piece of the client: text written to standard
error, the remote interactions performed, and the value produced or the
exception/exit that ended the run. -/
structure PyM (α : Type) where
  log : List String
  calls : List RemoteCall
  result : Except PyAbort α

instance : Monad PyM where
  pure a := ⟨[], [], .ok a⟩
  bind x f :=
    match x.result with
    | .error e => ⟨x.log, x.calls, .error e⟩
    | .ok a =>
      let y := f a
      ⟨x.log ++ y.log, x.calls ++ y.calls, y.result⟩

/-- Model of `sys.stderr.write`. -/
def pyWrite (s : String) : PyM Unit := ⟨[s], [], .ok ()⟩

/-- Record one remote interaction. -/
def pyCall (c : RemoteCall) : PyM Unit := ⟨[], [c], .ok ()⟩

/-- Model of `raise`. -/
def pyRaise {α : Type} (e : PyAbort) : PyM α := ⟨[], [], .error e⟩

/-- Model of `sys.exit`. -/
def pyExit {α : Type} (code : Int) : PyM α := ⟨[], [], .error (.exit code)⟩

/-- Lift a pure, effect-free Python computation. -/
def pyLift {α : Type} (e : Except PyAbort α) : PyM α := ⟨[], [], e⟩

/-- Model of `try: x except xmlrpclib.Fault: handler` — effects already
performed by `x` are kept. -/
def PyM.catchFault {α : Type} (x : PyM α) (handler : PyM α) : PyM α :=
  match x.result with
  | .error (.fault _) =>
    let y := handler
    ⟨x.log ++ y.log, x.calls ++ y.calls, y.result⟩
  | _ => x

/-- The legacy server: one pure response function per remote procedure.
`pwclient` treats the remote side as a black box, so each theorem
quantifies over this record. -/
structure XmlRpcClient where
  project_list : Option String → Int → List ProjectRec
  person_list : Option String → Int → List PersonRec
  state_list : Option String → Int → List StateRec
  patch_list : Filters → List RawPatch
  patch_get : Int → RawPatch
  check_get : Int → RawPatch
  patch_get_by_hash : String → RawPatch
  patch_get_by_project_hash : String → String → RawPatch

/-- Credential validation performed by `API.__init__` (`api.py` lines
25-35): username/password must come together, and must not be combined
with a token. -/
def API_init_validate (username password token : Option String) : Except PyAbort Unit :=
  if (truthyS username && !truthyS password) || (truthyS password && !truthyS username) then
    .error (.configError "You must provide both a username and a password or a token")
  else if (truthyS username && truthyS password) && truthyS token then
    .error (.configError "You must provide either a username and password or a token, not both")
  else
    .ok ()

/-- The state held by a constructed `XMLRPC` facade. -/
structure XMLRPCConn where
  server : String
  username : Option String
  password : Option String
deriving DecidableEq

/-- Embedding of `XMLRPC.__init__`: it invokes `API.__init__`'s checks,
then rejects tokens.  Constructing `xmlrpc.Transport` and
`xmlrpclib.Server` performs no network I/O, so the `IOError` branch is
unreachable and construction otherwise succeeds. -/
def XMLRPC_init (server : String) (username password token : Option String) :
    Except PyAbort XMLRPCConn := do
  API_init_validate username password token
  if truthyS token then
    .error (.configError "The XML-RPC API does not support API tokens")
  else
    .ok ⟨server, username, password⟩

/-- Embedding of `XMLRPC.state_list`: a direct remote call. -/
def XMLRPC.state_list (c : XmlRpcClient) (search_str : Option String) (max_count : Int) :
    PyM (List StateRec) := do
  pyCall (.xmlStateList search_str max_count)
  pure (c.state_list search_str max_count)

/-- Embedding of `XMLRPC.project_list`: a direct remote call. -/
def XMLRPC.project_list (c : XmlRpcClient) (search_str : Option String) (max_count : Int) :
    PyM (List ProjectRec) := do
  pyCall (.xmlProjectList search_str max_count)
  pure (c.project_list search_str max_count)

/-- Embedding of `XMLRPC.person_list`: a direct remote call. -/
def XMLRPC.person_list (c : XmlRpcClient) (search_str : Option String) (max_count : Int) :
    PyM (List PersonRec) := do
  pyCall (.xmlPersonList search_str max_count)
  pure (c.person_list search_str max_count)

/-- The `for state in states` scan inside `XMLRPC._state_id_by_name`:
first case-insensitive prefix match wins, `0` when nothing matches. -/
def stateScan (name : String) : List StateRec → Int
  | [] => 0
  | state :: rest =>
    if pyStartswith (pyLower state.name) (pyLower name) then state.id
    else stateScan name rest

/-- Embedding of `XMLRPC._state_id_by_name` (`api.py` lines 181-189). -/
def XMLRPC._state_id_by_name (c : XmlRpcClient) (name : String) : PyM Int := do
  if name.length = 0 then
    pure 0
  else do
    let states ← XMLRPC.state_list c (some name) 0
    pure (stateScan name states)

/-- The `for project in projects` scan inside
`XMLRPC._project_id_by_name`: exact linkname match, `0` when absent. -/
def xmlProjectScan (linkname : String) : List ProjectRec → Int
  | [] => 0
  | project :: rest =>
    if project.linkname = linkname then project.id
    else xmlProjectScan linkname rest

/-- Embedding of `XMLRPC._project_id_by_name` (`api.py` lines 207-215). -/
def XMLRPC._project_id_by_name (c : XmlRpcClient) (linkname : String) : PyM Int := do
  if linkname.length = 0 then
    pure 0
  else do
    let projects ← XMLRPC.project_list c (some linkname) 0
    pure (xmlProjectScan linkname projects)

/-- Embedding of `XMLRPC._person_ids_by_name` (`api.py` lines 217-223). -/
def XMLRPC._person_ids_by_name (c : XmlRpcClient) (name : String) : PyM (List Int) := do
  if name.length = 0 then
    pure []
  else do
    let people ← XMLRPC.person_list c (some name) 0
    pure (people.map fun x => x.id)

/-- Python `bytes.decode('utf-8')`; invalid byte sequences raise. -/
def decode_utf8 (bs : List UInt8) : Except PyAbort String :=
  match String.fromUTF8? (ByteArray.mk (Array.mk bs)) with
  | some s => .ok s
  | none => .error (.valueError "UnicodeDecodeError")

/-- Embedding of `XMLRPC._decode_patch` (`api.py` lines 225-233): decode
`xmlrpclib.Binary` values as UTF-8, pass everything else through. -/
def XMLRPC._decode_patch (patch : RawPatch) : Except PyAbort RawPatch :=
  patch.mapM fun kv =>
    match kv.2 with
    | .binary bs => do
      let s ← decode_utf8 bs
      pure (kv.1, XVal.str s)
    | v => pure (kv.1, v)

/-- The underlying `self._client.patch_list(filters)` remote call. -/
def XMLRPC.client_patch_list (c : XmlRpcClient) (filters : Filters) : PyM (List RawPatch) := do
  pyCall (.xmlPatchList filters)
  pure (c.patch_list filters)

/-- The `for person_id in person_ids` loop of `XMLRPC.patch_list`: one
remote list call per person, each carrying that single `submitter_id`,
results concatenated in order. -/
def XMLRPC.submitter_loop (c : XmlRpcClient) (filters : Filters) :
    List Int → PyM (List RawPatch)
  | [] => pure []
  | person_id :: rest => do
    let batch ← XMLRPC.client_patch_list c { filters with submitter_id := some person_id }
    let more ← XMLRPC.submitter_loop c filters rest
    pure (batch ++ more)

/-- Embedding of `XMLRPC.patch_list` (`api.py` lines 235-317).  The
delegate branch of the source calls
`self._person_ids_by_name(self, delegate)` — the bound instance is passed
as an extra positional argument, so Python raises `TypeError` before any
lookup is performed; the loop that follows it is dead code. -/
def XMLRPC.patch_list (c : XmlRpcClient) (project submitter delegate state : Option String)
    (archived : Option Bool) (msgid name hash : Option String) (max_count : Option Int) :
    PyM (List RawPatch) := do
  let filters : Filters := {}
  let filters := if truthyI max_count then { filters with max_count := max_count } else filters
  let filters := if archived.isSome then { filters with archived := archived } else filters
  let filters := if truthyS msgid then { filters with msgid := msgid } else filters
  let filters := if truthyS name then { filters with name__icontains := name } else filters
  let filters := if truthyS hash then { filters with hash := hash } else filters
  let filters ← match state with
    | some stateName => do
      let state_id ← XMLRPC._state_id_by_name c stateName
      if state_id = 0 then do
        pyWrite ("Note: No State found matching " ++ stateName ++ "*, ignoring filter\n")
        pure filters
      else
        pure { filters with state_id := some state_id }
    | none => pure filters
  let filters ← match project with
    | some proj => do
      let project_id ← XMLRPC._project_id_by_name c proj
      if project_id = 0 then do
        pyWrite ("Note: No Project found matching " ++ proj ++ ", ignoring filter\n")
        pure filters
      else
        pure { filters with project_id := some project_id }
    | none => pure filters
  match submitter with
  | some sub => do
    let person_ids ← XMLRPC._person_ids_by_name c sub
    if person_ids.length = 0 then do
      pyWrite ("Note: Nobody found matching *" ++ sub ++ "*\n")
      pyLift (List.mapM XMLRPC._decode_patch [])
    else do
      let patches ← XMLRPC.submitter_loop c filters person_ids
      pyLift (List.mapM XMLRPC._decode_patch patches)
  | none =>
    match delegate with
    | some _ =>
      pyRaise (.typeError
        "_person_ids_by_name() takes 2 positional arguments but 3 were given")
    | none => do
      let patches ← XMLRPC.client_patch_list c filters
      pyLift (List.mapM XMLRPC._decode_patch patches)

/-- The underlying `self._client.patch_get(patch_id)` remote call. -/
def XMLRPC.client_patch_get (c : XmlRpcClient) (patch_id : Int) : PyM RawPatch := do
  pyCall (.xmlPatchGet patch_id)
  pure (c.patch_get patch_id)

/-- Embedding of `XMLRPC.patch_get` (`api.py` lines 319-326): an empty
server response raises `APIError`. -/
def XMLRPC.patch_get (c : XmlRpcClient) (patch_id : Int) : PyM RawPatch := do
  let patch ← XMLRPC.client_patch_get c patch_id
  if patch.isEmpty then
    pyRaise (.apiError ("Unable to fetch patch " ++ toString patch_id ++ "; does it exist?"))
  else
    pyLift (XMLRPC._decode_patch patch)

/-- Embedding of `XMLRPC.check_get` (`api.py` lines 401-403): the
`patch_id` parameter is not used. -/
def XMLRPC.check_get (c : XmlRpcClient) (patch_id : Option Int) (check_id : Int) :
    PyM RawPatch := do
  pyCall (.xmlCheckGet check_id)
  pure (c.check_get check_id)

/-- The state held by a constructed `REST` facade. -/
structure RESTState where
  server : String
  username : Option String
  password : Option String
  token : Option String
deriving DecidableEq

/-- Split a character list at the first occurrence of `sep`. -/
def breakOnSub (sep : List Char) : List Char → Option (List Char × List Char)
  | [] => none
  | x :: xs =>
    if List.isPrefixOf sep (x :: xs) then some ([], (x :: xs).drop sep.length)
    else
      match breakOnSub sep xs with
      | some (a, b) => some (x :: a, b)
      | none => none

/-- Minimal model of `urllib.parse.urlparse` restricted to what
`REST.__init__` reads (scheme, netloc, path) for the query-free absolute
URLs it is given. -/
def urlparse (url : String) : String × String × String :=
  match breakOnSub "://".data url.data with
  | some (scheme, rest) =>
    (String.mk scheme, String.mk (rest.takeWhile fun ch => ch ≠ '/'),
      String.mk (rest.dropWhile fun ch => ch ≠ '/'))
  | none => ("", "", url)

/-- Model of Python `s.rstrip('/')`. -/
def pyRstripSlashes (s : String) : String :=
  String.mk ((s.data.reverse.dropWhile fun ch => ch = '/').reverse)

/-- Embedding of `REST.__init__` (`api.py` lines 428-442): it rewrites a
legacy `/xmlrpc` path to `/api` and stores the credentials.  It performs
no credential validation — unlike `XMLRPC.__init__`, it never invokes
`API.__init__`'s checks — so construction always succeeds. -/
def REST_init (server : String) (username password token : Option String) :
    Except PyAbort RESTState :=
  let parsed := urlparse server
  let scheme := if parsed.1 = "" then "http" else parsed.1
  let hostname := parsed.2.1
  let path := if pyRstripSlashes parsed.2.2 = "/xmlrpc" then "/api" else parsed.2.2
  .ok ⟨scheme ++ "://" ++ hostname ++ path, username, password, token⟩

/-- An HTTP response from the resource-oriented server. -/
inductive HttpResp where
  | ok (body : JVal) (headers : List (String × String))
  | err (status : Int) (body : String)

/-- The resource-oriented server as an oracle from URL to response.
Bodies of successful responses are supplied already JSON-parsed. -/
abbrev HttpServer := String → HttpResp

/-- The first component of `REST._get`'s return value: the raw response
body on success, or the Python empty dict `{}` that the 404 branch
returns in place of bytes. -/
inductive RData where
  | bytes (body : JVal)
  | emptyDict

/-- Embedding of `REST._get` (`api.py` lines 463-482): a 404 yields
`({}, {})`; any other error status prints the response to standard error
and exits.  Request-header construction (`_generate_headers`) has no
observable effect in this model and is elided. -/
def REST._get (srv : HttpServer) (url : String) : PyM (RData × List (String × String)) := do
  pyCall (.httpGet url)
  match srv url with
  | .ok body headers => pure (.bytes body, headers)
  | .err status body =>
    if status = 404 then
      pure (.emptyDict, [])
    else do
      pyWrite "Request failed\n\n"
      pyWrite "Response:\n"
      pyWrite body
      pyExit 1

/-- Python `json.loads(data)`: parses response bytes; applied to the
Python dict `{}` from the 404 branch it raises `TypeError`. -/
def json_loads : RData → Except PyAbort JVal
  | .bytes body => .ok body
  | .emptyDict => .error (.typeError "the JSON object must be str, bytes or bytearray, not dict")

/-- Model of `urllib.parse.urlencode` for the URL-safe slug/hash/linkname
values the code passes (no percent-escaping needed for them). -/
def urlencode (params : List (String × String)) : String :=
  String.intercalate "&" (params.map fun kv => kv.1 ++ "=" ++ kv.2)

/-- Interpolation of an optional integer into an f-string (`None` prints
as `None`). -/
def optNumStr : Option Int → String
  | some i => toString i
  | none => "None"

/-- Interpolation of an optional string into an f-string. -/
def optSubStr : Option String → String
  | some s => s
  | none => "None"

/-- Embedding of `REST._detail` (`api.py` lines 559-574). -/
def REST._detail (srv : HttpServer) (st : RESTState) (resource_type : String)
    (resource_id : Int) (params : List (String × String))
    (subresource_type : Option String) (subresource_id : Option Int) : PyM JVal := do
  let url := st.server ++ "/" ++ resource_type ++ "/" ++ toString resource_id ++ "/"
  let url :=
    if truthyS subresource_type then
      url ++ optSubStr subresource_type ++ "/" ++ optNumStr subresource_id ++ "/"
    else url
  let url := if params.isEmpty then url else url ++ "?" ++ urlencode params
  let res ← REST._get srv url
  pyLift (json_loads res.1)

/-- Embedding of `REST._list` (`api.py` lines 576-590): one GET, whose
response headers — including any `Link` relations — are discarded; only
the single returned body is parsed. -/
def REST._list (srv : HttpServer) (st : RESTState) (resource_type : String)
    (params : List (String × String)) (resource_id : Option Int)
    (subresource_type : Option String) : PyM JVal := do
  let url := st.server ++ "/" ++ resource_type ++ "/"
  let url :=
    if truthyI resource_id then
      url ++ optNumStr resource_id ++ "/" ++ optSubStr subresource_type ++ "/"
    else url
  let url := if params.isEmpty then url else url ++ "?" ++ urlencode params
  let res ← REST._get srv url
  pyLift (json_loads res.1)

/-- Embedding of `REST._project_to_dict` (`api.py` lines 594-607). -/
def REST._project_to_dict (obj : JVal) : Except PyAbort JVal := do
  let idv ← obj.getItem "id"
  let linknamev ←
    match (match obj with | .obj kvs => kvs.any fun kv => kv.1 == "linkname" | _ => false) with
    | true => obj.getItem "linkname"
    | false => obj.getItem "link_name"
  let namev ← obj.getItem "name"
  .ok (.obj [("id", idv), ("linkname", linknamev), ("name", namev)])

/-- Embedding of `REST._person_to_dict` (`api.py` lines 630-642).  The
source guards the `user` field with `obj['username']` — the top-level
payload has no such key, so the lookup itself is what runs. -/
def REST._person_to_dict (obj : JVal) : Except PyAbort JVal := do
  let idv ← obj.getItem "id"
  let emailv ← obj.getItem "email"
  let namecond ← obj.getItem "name"
  let namev := if namecond.truthy then namecond else emailv
  let usercond ← obj.getItem "username"
  let userv ←
    if usercond.truthy then do
      let user ← obj.getItem "user"
      user.getItem "username"
    else
      pure (JVal.str "")
  .ok (.obj [("id", idv), ("email", emailv), ("name", namev), ("user", userv)])

/-- The `_format_person` helper inside `REST._patch_to_dict`. -/
def REST._format_person (person : JVal) : Except PyAbort JVal := do
  if !person.truthy then
    pure (JVal.str "")
  else do
    let namev ← person.getItem "name"
    if namev.truthy then do
      let emailv ← person.getItem "email"
      pure (JVal.str (pyFormat namev ++ " <" ++ pyFormat emailv ++ ">"))
    else
      person.getItem "email"

/-- The `_format_user` helper inside `REST._patch_to_dict`. -/
def REST._format_user (user : JVal) : Except PyAbort JVal := do
  if !user.truthy then
    pure (JVal.str "")
  else
    user.getItem "username"

/-- Embedding of `REST._patch_to_dict` (`api.py` lines 665-704),
evaluating the dictionary-literal entries in source order. -/
def REST._patch_to_dict (obj : JVal) : Except PyAbort JVal := do
  let idv ← obj.getItem "id"
  let datev ← obj.getItem "date"
  let filenamev := if (obj.get "filename").truthy then obj.get "filename" else JVal.str ""
  let msgidv ← obj.getItem "msgid"
  let namev ← obj.getItem "name"
  let projv ← obj.getItem "project"
  let projnamev ← projv.getItem "name"
  let projv2 ← obj.getItem "project"
  let projidv ← projv2.getItem "id"
  let statev ← obj.getItem "state"
  let archivedv ← obj.getItem "archived"
  let submitterv ← obj.getItem "submitter"
  let submitterfmt ← REST._format_person submitterv
  let submitterv2 ← obj.getItem "submitter"
  let submitteridv ← submitterv2.getItem "id"
  let delegatev ← obj.getItem "delegate"
  let delegatefmt ← REST._format_user delegatev
  let delegatev2 ← obj.getItem "delegate"
  let delegateidv ←
    if delegatev2.truthy then delegatev2.getItem "id"
    else pure (JVal.str "")
  let commitrefv ← obj.getItem "commit_ref"
  let commitrefv := if commitrefv.truthy then commitrefv else JVal.str ""
  let hashv ← obj.getItem "hash"
  let hashv := if hashv.truthy then hashv else JVal.str ""
  .ok (.obj
    [("id", idv), ("date", datev), ("filename", filenamev), ("msgid", msgidv),
      ("name", namev), ("project", projnamev), ("project_id", projidv),
      ("state", statev), ("state_id", JVal.str ""), ("archived", archivedv),
      ("submitter", submitterfmt), ("submitter_id", submitteridv),
      ("delegate", delegatefmt), ("delegate_id", delegateidv),
      ("commit_ref", commitrefv), ("hash", hashv)])

/-- Embedding of `REST.project_list` (`api.py` lines 609-622): any search
string or count bound is rejected before any request is issued. -/
def REST.project_list (srv : HttpServer) (st : RESTState) (search_str : Option String)
    (max_count : Int) : PyM (List JVal) := do
  if truthyS search_str then
    pyRaise (.notImplementedError "The search_str parameter is not supported")
  else if max_count ≠ 0 then
    pyRaise (.notImplementedError "The max_count parameter is not supported")
  else do
    let projects ← REST._list srv st "projects" [] none none
    let items ← pyLift projects.pyIter
    pyLift (items.mapM REST._project_to_dict)

/-- Embedding of `REST.person_list` (`api.py` lines 644-657): same
rejection of search string and count bound before any request. -/
def REST.person_list (srv : HttpServer) (st : RESTState) (search_str : Option String)
    (max_count : Int) : PyM (List JVal) := do
  if truthyS search_str then
    pyRaise (.notImplementedError "The search_str parameter is not supported")
  else if max_count ≠ 0 then
    pyRaise (.notImplementedError "The max_count parameter is not supported")
  else do
    let people ← REST._list srv st "people" [] none none
    let items ← pyLift people.pyIter
    pyLift (items.mapM REST._person_to_dict)

/-- Embedding of `REST.patch_list` (`api.py` lines 706-737): the state
filter is slugified and passed straight through; submitter, delegate,
archived, msgid and name are accepted but ignored by this backend. -/
def REST.patch_list (srv : HttpServer) (st : RESTState)
    (project submitter delegate state : Option String) (archived : Option Bool)
    (msgid name hash : Option String) (max_count : Option Int) : PyM (List JVal) := do
  if truthyI max_count then
    pyRaise (.notImplementedError "The max_count parameter is not supported")
  else do
    let filters : List (String × String) := []
    let filters := filters ++
      (match state with
        | some s => [("state", slugify s)]
        | none => [])
    let filters := filters ++
      (match project with
        | some p => [("project", p)]
        | none => [])
    let filters := filters ++
      (match hash with
        | some h => [("hash", h)]
        | none => [])
    let patches ← REST._list srv st "patches" filters none none
    let items ← pyLift patches.pyIter
    pyLift (items.mapM REST._patch_to_dict)

/-- Embedding of `REST.patch_get` (`api.py` lines 739-741). -/
def REST.patch_get (srv : HttpServer) (st : RESTState) (patch_id : Int) : PyM JVal := do
  let patch ← REST._detail srv st "patches" patch_id [] none none
  pyLift (REST._patch_to_dict patch)

/-- Embedding of `REST.patch_get_by_hash` (`api.py` lines 743-747): any
number of matches other than exactly one yields the empty dict, emulating
the legacy behavior. -/
def REST.patch_get_by_hash (srv : HttpServer) (st : RESTState) (hash : String) : PyM JVal := do
  let patches ← REST._list srv st "patches" [("hash", hash)] none none
  let n ← pyLift patches.pyLen
  if n ≠ 1 then
    pure (.obj [])
  else do
    let p ← pyLift (patches.pyIndex 0)
    pyLift (REST._patch_to_dict p)

/-- Embedding of `REST.patch_get_by_project_hash` (`api.py` lines
749-753). -/
def REST.patch_get_by_project_hash (srv : HttpServer) (st : RESTState)
    (project hash : String) : PyM JVal := do
  let patches ← REST._list srv st "patches" [("project", project), ("hash", hash)] none none
  let n ← pyLift patches.pyLen
  if n ≠ 1 then
    pure (.obj [])
  else do
    let p ← pyLift (patches.pyIndex 0)
    pyLift (REST._patch_to_dict p)

/-- Embedding of `patches.patch_id_from_hash` (`patches.py` lines 65-84),
generic in the API object it is handed (duck typing): an empty-dict
lookup result is fatal with a diagnostic, as is a non-numeric id. -/
def patch_id_from_hash (get_by_project_hash : String → String → PyM JVal)
    (get_by_hash : String → PyM JVal) (project hash : String) : PyM Int := do
  let patch ← PyM.catchFault (get_by_project_hash project hash) (get_by_hash hash)
  if patch.isEmptyDict then do
    pyWrite "No patch has the hash provided\n"
    pyExit 1
  else do
    let pidv ← pyLift (patch.getItem "id")
    match pyInt pidv with
    | .ok pid => pure pid
    | .error (.valueError _) => do
      pyWrite "Invalid patch ID obtained from server\n"
      pyExit 1
    | .error e => pyLift (.error e)

/-- Python `v == s` between a JSON value and a string: true exactly when
the value is that string. -/
def jStrEq (v : JVal) (s : String) : Bool :=
  match v with
  | .str t => t == s
  | _ => false

/-- The `for project in projects` scan inside
`projects.project_id_by_name`, over canonical project dictionaries. -/
def projectScan (linkname : String) : List JVal → Except PyAbort JVal
  | [] => .ok (.int 0)
  | p :: rest => do
    let ln ← p.getItem "linkname"
    if jStrEq ln linkname then
      p.getItem "id"
    else
      projectScan linkname rest

/-- Embedding of `projects.project_id_by_name` (`projects.py` lines
8-16), generic in the API object's `project_list` (duck typing). -/
def project_id_by_name (project_list : Option String → Int → PyM (List JVal))
    (linkname : String) : PyM JVal := do
  if linkname.length = 0 then
    pure (.int 0)
  else do
    let projects ← project_list (some linkname) 0
    pyLift (projectScan linkname projects)

/-- Modelled from the spec, for comparison with `XMLRPC._state_id_by_name`
(claim C7's wording): the id of the first state in list order whose name
starts with the query case-insensitively, and `0` when no state
matches. -/
def claimStateResolve (query : String) : List StateRec → Int
  | [] => 0
  | state :: rest =>
    if pyStartswith (pyLower state.name) (pyLower query) then state.id
    else claimStateResolve query rest

/-! ### Fixtures: concrete servers and clients used by closed theorems -/

/-- A legacy client all of whose responses are empty. -/
def emptyClient : XmlRpcClient where
  project_list := fun _ _ => []
  person_list := fun _ _ => []
  state_list := fun _ _ => []
  patch_list := fun _ => []
  patch_get := fun _ => []
  check_get := fun _ => []
  patch_get_by_hash := fun _ => []
  patch_get_by_project_hash := fun _ _ => []

/-- A client whose state list has an earlier prefix match before the
exact entry with id 3. -/
def c4client : XmlRpcClient :=
  { emptyClient with state_list := fun _ _ => [⟨9, "Accepted v2"⟩, ⟨3, "Accepted"⟩] }

/-- A client with two people matching the substring query "jer", each
owning one patch, and nobody matching "nobody". -/
def c5client : XmlRpcClient :=
  { emptyClient with
    person_list := fun q _ =>
      if q = some "nobody" then []
      else [⟨1, "Jeremy", "j@example.com"⟩, ⟨4, "Michael", "m@example.com"⟩],
    patch_list := fun f =>
      if f.submitter_id = some 1 then [[("id", XVal.int 10)]]
      else if f.submitter_id = some 4 then [[("id", XVal.int 40)]]
      else [] }

/-- A client with a single state whose first prefix match for the empty
query would be itself. -/
def c7client : XmlRpcClient :=
  { emptyClient with state_list := fun _ _ => [⟨3, "Accepted"⟩] }

/-- A client exhibiting the `["New", "Newer"]` state list in that order. -/
def newNewerClient : XmlRpcClient :=
  { emptyClient with state_list := fun _ _ => [⟨1, "New"⟩, ⟨2, "Newer"⟩] }

/-- An HTTP server whose patches collection is split over two pages tied
together by a `Link: <...>; rel="next"` response header. -/
def c3Server : HttpServer := fun url =>
  if url = "https://example.com/api/patches/" then
    .ok (.arr [.obj [("id", .int 1)]])
      [("Link", "<https://example.com/api/patches/?page=2>; rel=\"next\"")]
  else if url = "https://example.com/api/patches/?page=2" then
    .ok (.arr [.obj [("id", .int 2)]]) []
  else
    .err 404 ""

/-- REST facade state pointing at the example server. -/
def exState : RESTState := ⟨"https://example.com/api", none, none, none⟩

/-- An HTTP server that answers 404 to everything. -/
def notFoundServer : HttpServer := fun _ => .err 404 "not found"

/-- An HTTP server whose patches collection always returns two matches. -/
def twoMatchServer : HttpServer := fun _ =>
  .ok (.arr [.obj [("id", .int 5)], .obj [("id", .int 6)]]) []

/-! ### Helper lemmas -/

/-- A string has length zero exactly when it is empty. -/
theorem string_length_eq_zero_iff {s : String} : s.length = 0 ↔ s = "" := by
  constructor
  · intro h
    cases s with
    | mk data =>
      cases data with
      | nil => rfl
      | cons a as => simp [String.length] at h
  · intro h
    subst h
    rfl

/-- Running `bind` on an already-evaluated succeeding computation. -/
@[simp] theorem bind_mk_ok {α β : Type} (lg : List String) (cs : List RemoteCall) (a : α)
    (f : α → PyM β) :
    (PyM.mk lg cs (.ok a) >>= f)
      = ⟨lg ++ (f a).log, cs ++ (f a).calls, (f a).result⟩ := rfl

/-- Running `bind` on an already-evaluated failing computation. -/
@[simp] theorem bind_mk_err {α β : Type} (lg : List String) (cs : List RemoteCall)
    (e : PyAbort) (f : α → PyM β) :
    (PyM.mk lg cs (.error e) >>= f) = ⟨lg, cs, .error e⟩ := rfl

@[simp] theorem pure_pym {α : Type} (a : α) : (pure a : PyM α) = ⟨[], [], .ok a⟩ := rfl

@[simp] theorem pyWrite_def (s : String) : pyWrite s = ⟨[s], [], .ok ()⟩ := rfl

@[simp] theorem pyCall_def (c : RemoteCall) : pyCall c = ⟨[], [c], .ok ()⟩ := rfl

@[simp] theorem pyRaise_def {α : Type} (e : PyAbort) :
    (pyRaise e : PyM α) = ⟨[], [], .error e⟩ := rfl

@[simp] theorem pyExit_def {α : Type} (code : Int) :
    (pyExit code : PyM α) = ⟨[], [], .error (.exit code)⟩ := rfl

@[simp] theorem pyLift_def {α : Type} (e : Except PyAbort α) : pyLift e = ⟨[], [], e⟩ := rfl

/-- `XMLRPC.state_list` evaluated: one remote call, the server's answer. -/
theorem XMLRPC.state_list_eq (c : XmlRpcClient) (q : Option String) (mc : Int) :
    XMLRPC.state_list c q mc = ⟨[], [.xmlStateList q mc], .ok (c.state_list q mc)⟩ := rfl

/-- `XMLRPC.person_list` evaluated. -/
theorem XMLRPC.person_list_eq (c : XmlRpcClient) (q : Option String) (mc : Int) :
    XMLRPC.person_list c q mc = ⟨[], [.xmlPersonList q mc], .ok (c.person_list q mc)⟩ := rfl

/-- `XMLRPC.client_patch_list` evaluated. -/
theorem XMLRPC.client_patch_list_eq (c : XmlRpcClient) (f : Filters) :
    XMLRPC.client_patch_list c f = ⟨[], [.xmlPatchList f], .ok (c.patch_list f)⟩ := rfl

/-- `XMLRPC.client_patch_get` evaluated. -/
theorem XMLRPC.client_patch_get_eq (c : XmlRpcClient) (pid : Int) :
    XMLRPC.client_patch_get c pid = ⟨[], [.xmlPatchGet pid], .ok (c.patch_get pid)⟩ := rfl

/-- The embedded loop of `_state_id_by_name` agrees with the spec-side
resolution function (they perform the same scan). -/
theorem stateScan_eq_claimStateResolve (q : String) (l : List StateRec) :
    stateScan q l = claimStateResolve q l := by
  induction l with
  | nil => rfl
  | cons s rest ih =>
    unfold stateScan claimStateResolve
    rw [ih]

/-- Scanning a list whose prefix has no match returns the first matching
element's id. -/
theorem stateScan_append (q : String) (l₁ l₂ : List StateRec) (s : StateRec)
    (h : ∀ x ∈ l₁, pyStartswith (pyLower x.name) (pyLower q) = false)
    (hm : pyStartswith (pyLower s.name) (pyLower q) = true) :
    stateScan q (l₁ ++ s :: l₂) = s.id := by
  induction l₁ with
  | nil =>
    simp [stateScan, hm]
  | cons a as ih =>
    have ha := h a (by simp)
    simp only [List.cons_append, stateScan, ha, Bool.false_eq_true, if_false]
    exact ih fun x hx => h x (by simp [hx])

/-- `_state_id_by_name` on a non-empty query: fetch once, scan. -/
theorem state_id_by_name_eq (c : XmlRpcClient) (name : String) (h : name ≠ "") :
    XMLRPC._state_id_by_name c name
      = ⟨[], [.xmlStateList (some name) 0],
          .ok (stateScan name (c.state_list (some name) 0))⟩ := by
  have hlen : ¬ name.length = 0 := fun hc => h (string_length_eq_zero_iff.mp hc)
  unfold XMLRPC._state_id_by_name
  rw [if_neg hlen]
  rfl

/-- Unfolded form of `bind` for the effect-tracking result type. -/
theorem bind_def {α β : Type} (x : PyM α) (f : α → PyM β) :
    x >>= f
      = match x.result with
        | .error e => ⟨x.log, x.calls, .error e⟩
        | .ok a => ⟨x.log ++ (f a).log, x.calls ++ (f a).calls, (f a).result⟩ := rfl

/-- The calls performed by a sequenced computation. -/
theorem calls_bind {α β : Type} (x : PyM α) (f : α → PyM β) :
    (x >>= f).calls
      = x.calls ++
        (match x.result with
          | .ok a => (f a).calls
          | .error _ => []) := by
  rw [bind_def]
  cases x.result <;> simp

/-- `REST._get` performs exactly one HTTP request, to the given URL. -/
theorem REST_get_calls (srv : HttpServer) (url : String) :
    (REST._get srv url).calls = [.httpGet url] := by
  unfold REST._get
  cases h : srv url with
  | ok body headers => simp [h]
  | err status body =>
    by_cases h4 : status = 404 <;> simp [h, h4]

@[simp] theorem truthyI_none : truthyI none = false := rfl

@[simp] theorem truthyS_none : truthyS none = false := rfl

/-- Sequencing with a remainder that performs no remote interaction
leaves the call trace unchanged. -/
theorem calls_bind_of_noCalls {α β : Type} (x : PyM α) (f : α → PyM β)
    (h : ∀ a, (f a).calls = []) : (x >>= f).calls = x.calls := by
  rw [calls_bind]
  cases x.result <;> simp [h]

/-! ### Claim theorems -/

/-- C1: the claim requires both backends to reject invalid credential
combinations at construction time.  `XMLRPC.__init__` does (first five
conjuncts), but `REST.__init__` performs no validation at all — it never
invokes `API.__init__`'s checks — so a username without a password, a
password without a username, and username+password+token together are all
accepted on the resource-oriented backend (last three conjuncts),
contradicting the claim. -/
theorem C1_code_bug_eval :
    XMLRPC_init "https://example.com/xmlrpc" (some "user") none none
      = .error (.configError "You must provide both a username and a password or a token")
    ∧ XMLRPC_init "https://example.com/xmlrpc" none (some "pass") none
      = .error (.configError "You must provide both a username and a password or a token")
    ∧ XMLRPC_init "https://example.com/xmlrpc" (some "user") (some "pass") (some "tok")
      = .error (.configError
          "You must provide either a username and password or a token, not both")
    ∧ XMLRPC_init "https://example.com/xmlrpc" (some "user") (some "pass") none
      = .ok ⟨"https://example.com/xmlrpc", some "user", some "pass"⟩
    ∧ XMLRPC_init "https://example.com/xmlrpc" none none (some "tok")
      = .error (.configError "The XML-RPC API does not support API tokens")
    ∧ REST_init "https://example.com/api" (some "user") none none
      = .ok ⟨"https://example.com/api", some "user", none, none⟩
    ∧ REST_init "https://example.com/api" none (some "pass") none
      = .ok ⟨"https://example.com/api", none, some "pass", none⟩
    ∧ REST_init "https://example.com/api" (some "user") (some "pass") (some "tok")
      = .ok ⟨"https://example.com/api", some "user", some "pass", some "tok"⟩ :=
  ⟨rfl, rfl, rfl, rfl, rfl, rfl, rfl, rfl⟩

/-- C2 counterexample: a nonexistent patch makes the detail fetch raise
on both backends — `APIError` on the legacy backend for the empty-dict
response, and `TypeError` on the resource-oriented backend because the
transport's 404 branch hands a Python `{}` placeholder to `json.loads` —
instead of returning an empty canonical record. -/
theorem C2_counterexample :
    XMLRPC.patch_get emptyClient 42
      = ⟨[], [.xmlPatchGet 42],
          .error (.apiError "Unable to fetch patch 42; does it exist?")⟩
    ∧ REST.patch_get notFoundServer exState 7
      = ⟨[], [.httpGet "https://example.com/api/patches/7/"],
          .error (.typeError "the JSON object must be str, bytes or bytearray, not dict")⟩ :=
  ⟨rfl, rfl⟩

/-- C2 (amended): a detail fetch for a nonexistent patch raises on both
backends rather than returning an empty record: the legacy facade raises
`APIError` when the server returns an empty dict, and the
resource-oriented facade fails with a `TypeError` on a 404, because the
transport's 404 branch returns an empty-dict placeholder that cannot be
JSON-parsed; the 404 itself is not fatal at the transport level (the GET
returns the placeholder without exiting). -/
theorem C2_not_found_raises (c : XmlRpcClient) (patch_id : Int)
    (h : c.patch_get patch_id = [])
    (srv : HttpServer) (st : RESTState) (pid : Int) (body : String)
    (h404 : srv (st.server ++ "/" ++ "patches" ++ "/" ++ toString pid ++ "/")
      = .err 404 body) :
    XMLRPC.patch_get c patch_id
      = ⟨[], [.xmlPatchGet patch_id],
          .error (.apiError
            ("Unable to fetch patch " ++ toString patch_id ++ "; does it exist?"))⟩
    ∧ REST.patch_get srv st pid
      = ⟨[], [.httpGet (st.server ++ "/" ++ "patches" ++ "/" ++ toString pid ++ "/")],
          .error (.typeError "the JSON object must be str, bytes or bytearray, not dict")⟩
    ∧ (REST._get srv (st.server ++ "/" ++ "patches" ++ "/" ++ toString pid ++ "/")).result
      = .ok (.emptyDict, []) := by
  refine ⟨?_, ?_, ?_⟩
  · unfold XMLRPC.patch_get
    rw [XMLRPC.client_patch_get_eq, h]
    rfl
  · unfold REST.patch_get REST._detail REST._get
    simp [truthyS, h404, json_loads]
  · unfold REST._get
    simp [truthyS, h404]

/-- Witness for C2's amended theorem at a concrete client, server and
patch id. -/
theorem C2_witness :
    XMLRPC.patch_get emptyClient 5
      = ⟨[], [.xmlPatchGet 5],
          .error (.apiError ("Unable to fetch patch " ++ toString (5 : Int) ++ "; does it exist?"))⟩
    ∧ REST.patch_get notFoundServer exState 5
      = ⟨[], [.httpGet (exState.server ++ "/" ++ "patches" ++ "/" ++ toString (5 : Int) ++ "/")],
          .error (.typeError "the JSON object must be str, bytes or bytearray, not dict")⟩
    ∧ (REST._get notFoundServer
        (exState.server ++ "/" ++ "patches" ++ "/" ++ toString (5 : Int) ++ "/")).result
      = .ok (.emptyDict, []) :=
  C2_not_found_raises emptyClient 5 rfl notFoundServer exState 5 "not found" rfl

/-- C3: the transport ignores the `Link` response header carrying the
`rel="next"` relation: against a server whose page 1 answers
`[{"id":1}]` with a next link to page 2 (which answers `[{"id":2}]`), the
collection GET performs a single request and returns only page 1's
results — not the claimed concatenation of both pages — contradicting
the repository's own transport test. -/
theorem C3_code_bug_eval :
    REST._list c3Server exState "patches" [] none none
      = ⟨[], [.httpGet "https://example.com/api/patches/"],
          .ok (.arr [.obj [("id", .int 1)]])⟩
    ∧ (JVal.arr [.obj [("id", .int 1)]])
        ≠ .arr [.obj [("id", .int 1)], .obj [("id", .int 2)]] := by
  refine ⟨rfl, ?_⟩
  simp

/-- C5: the submitter path conforms to the claim — one underlying
patch-list call per matched person id, each carrying that single id as
the `submitter_id` filter, results concatenated in resolution order, and
zero matches producing a diagnostic and an empty result — but the same
claim fails for the delegate path: the source passes the bound instance
as an extra argument to `_person_ids_by_name`, so every delegate filter
raises `TypeError` before any remote call. -/
theorem C5_code_bug_eval :
    XMLRPC.patch_list c5client none (some "jer") none none none none none none none
      = ⟨[], [.xmlPersonList (some "jer") 0,
              .xmlPatchList { submitter_id := some 1 },
              .xmlPatchList { submitter_id := some 4 }],
          .ok [[("id", XVal.int 10)], [("id", XVal.int 40)]]⟩
    ∧ XMLRPC.patch_list c5client none (some "nobody") none none none none none none none
      = ⟨["Note: Nobody found matching *nobody*\n"],
          [.xmlPersonList (some "nobody") 0], .ok []⟩
    ∧ XMLRPC.patch_list c5client none none (some "jer") none none none none none none
      = ⟨[], [], .error (.typeError
          "_person_ids_by_name() takes 2 positional arguments but 3 were given")⟩ :=
  ⟨rfl, rfl, rfl⟩

/-- C7 counterexample: for the empty query the code returns 0 without
fetching anything, while the claimed rule (id of the first state of the
fetched list whose name starts with the query, case-insensitively) would
return 3, because every name starts with the empty string. -/
theorem C7_counterexample :
    XMLRPC._state_id_by_name c7client "" = ⟨[], [], .ok 0⟩
    ∧ claimStateResolve "" (c7client.state_list (some "") 0) = 3
    ∧ (0 : Int) ≠ 3 :=
  ⟨rfl, rfl, by decide⟩

/-- C7 (amended): for every non-empty query, legacy state resolution
fetches the state list once and returns the id of the first state in
list order whose name starts with the query case-insensitively, 0 when
none matches; the empty query returns 0 without fetching; in particular
"New" against the list ["New", "Newer"] supplied in that order resolves
to the id of "New" (1), not of "Newer". -/
theorem C7_prefix_match_resolution (c : XmlRpcClient) (name : String) (h : name ≠ "") :
    XMLRPC._state_id_by_name c name
      = ⟨[], [.xmlStateList (some name) 0],
          .ok (claimStateResolve name (c.state_list (some name) 0))⟩
    ∧ XMLRPC._state_id_by_name c "" = ⟨[], [], .ok 0⟩
    ∧ XMLRPC._state_id_by_name newNewerClient "New"
      = ⟨[], [.xmlStateList (some "New") 0], .ok 1⟩ := by
  refine ⟨?_, rfl, rfl⟩
  rw [state_id_by_name_eq c name h, stateScan_eq_claimStateResolve]

/-- Witness for C7's amended theorem at the "New"/"Newer" client. -/
theorem C7_witness :
    XMLRPC._state_id_by_name newNewerClient "New"
      = ⟨[], [.xmlStateList (some "New") 0],
          .ok (claimStateResolve "New" (newNewerClient.state_list (some "New") 0))⟩ :=
  (C7_prefix_match_resolution newNewerClient "New" (by decide)).1

/-- C8: the person normalizer guards the `user` field with
`obj['username']` — a key the top-level person payload does not carry —
so normalization raises `KeyError` instead of producing the claimed
record, both when an associated account is present and when it is
absent. -/
theorem C8_code_bug_eval :
    REST._person_to_dict (.obj
        [("id", .int 1), ("url", .str "https://example.com/api/people/1/"),
          ("name", .str ""), ("email", .str "a@example.com"), ("user", .null)])
      = .error (.keyError "username")
    ∧ REST._person_to_dict (.obj
        [("id", .int 2), ("url", .str "https://example.com/api/people/2/"),
          ("name", .str "Joe Bloggs"), ("email", .str "joe@example.com"),
          ("user", .obj [("id", .int 7), ("username", .str "joe")])])
      = .error (.keyError "username")
    ∧ (JVal.str "") ≠ .null :=
  ⟨rfl, rfl, by simp⟩

/-- C9: `XMLRPC.check_get` ignores its `patch_id` argument entirely: for
any check id and any two patch ids (including `None`), the underlying
remote call and the returned record are identical — the legacy backend
fetches a check by `check_id` alone. -/
theorem C9_check_get_ignores_patch_id (c : XmlRpcClient)
    (patch_id₁ patch_id₂ : Option Int) (check_id : Int) :
    XMLRPC.check_get c patch_id₁ check_id = XMLRPC.check_get c patch_id₂ check_id
    ∧ (XMLRPC.check_get c patch_id₁ check_id).calls = [.xmlCheckGet check_id]
    ∧ (XMLRPC.check_get c patch_id₁ check_id).result = .ok (c.check_get check_id) :=
  ⟨rfl, rfl, rfl⟩

/-- C4 counterexample: a fetched state list can contain
`{id:3,name:"Accepted"}` and yet have an earlier case-insensitive prefix
match ("Accepted v2", id 9); the underlying patch-list call then carries
`state_id=9`, not the claimed `state_id=3`. -/
theorem C4_counterexample :
    (⟨3, "Accepted"⟩ : StateRec) ∈ c4client.state_list (some "Accepted") 0
    ∧ (XMLRPC.patch_list c4client none none none (some "Accepted") none none none
        none none).calls
      = [.xmlStateList (some "Accepted") 0, .xmlPatchList { state_id := some 9 }]
    ∧ ({ state_id := some 9 } : Filters) ≠ { state_id := some 3 } :=
  ⟨by decide, rfl, by decide⟩

/-- C4 (amended): listing patches with the state filter "Accepted"
behaves asymmetrically by backend: on the legacy backend, when the first
state of the fetched list whose name starts with "Accepted"
case-insensitively is `{id:3,name:"Accepted"}`, the state list is fetched
once (a resolution round trip) and the single underlying patch-list call
carries `state_id=3`; on the resource-oriented backend the filter is
passed in the query as `state=accepted` and the only remote interaction
is that one collection GET — no state-resolution call is made. -/
theorem C4_state_filter_asymmetry (c : XmlRpcClient) (l₁ l₂ : List StateRec)
    (h1 : c.state_list (some "Accepted") 0 = l₁ ++ ⟨3, "Accepted"⟩ :: l₂)
    (h2 : ∀ x ∈ l₁, pyStartswith (pyLower x.name) (pyLower "Accepted") = false)
    (srv : HttpServer) (st : RESTState) :
    XMLRPC.patch_list c none none none (some "Accepted") none none none none none
      = ⟨[], [.xmlStateList (some "Accepted") 0, .xmlPatchList { state_id := some 3 }],
          List.mapM XMLRPC._decode_patch (c.patch_list { state_id := some 3 })⟩
    ∧ (REST.patch_list srv st none none none (some "Accepted") none none none
        none none).calls
      = [.httpGet (st.server ++ "/" ++ "patches" ++ "/" ++ "?"
          ++ urlencode [("state", slugify "Accepted")])] := by
  have hscan : stateScan "Accepted" (c.state_list (some "Accepted") 0) = 3 := by
    rw [h1]
    exact stateScan_append "Accepted" l₁ l₂ ⟨3, "Accepted"⟩ h2 (by decide)
  have hq := state_id_by_name_eq c "Accepted" (by decide)
  constructor
  · simp only [XMLRPC.patch_list, hq, hscan, XMLRPC.client_patch_list]
    simp [truthyS, truthyI]
  · have hcont : ∀ patches : JVal,
        ((do
          let items ← pyLift patches.pyIter
          pyLift (items.mapM REST._patch_to_dict)) : PyM (List JVal)).calls = [] := by
      intro patches
      rw [calls_bind]
      cases hpi : patches.pyIter <;> simp [hpi]
    simp only [REST.patch_list, truthyI_none, truthyS_none, Bool.false_eq_true, if_false,
      List.nil_append, List.append_nil]
    rw [calls_bind_of_noCalls _ _ hcont]
    simp only [REST._list, truthyI_none, Bool.false_eq_true, if_false, List.isEmpty_cons]
    rw [calls_bind_of_noCalls _ _ fun res => rfl]
    exact REST_get_calls srv _

/-- A client whose state list is `["New", {id:3,"Accepted"}]`, used to
instantiate C4's amended theorem. -/
def c4witnessClient : XmlRpcClient :=
  { emptyClient with state_list := fun _ _ => [⟨1, "New"⟩, ⟨3, "Accepted"⟩] }

/-- Witness for C4's amended theorem at a concrete client and server. -/
theorem C4_witness :
    XMLRPC.patch_list c4witnessClient none none none (some "Accepted") none none none
        none none
      = ⟨[], [.xmlStateList (some "Accepted") 0, .xmlPatchList { state_id := some 3 }],
          List.mapM XMLRPC._decode_patch (c4witnessClient.patch_list { state_id := some 3 })⟩
    ∧ (REST.patch_list notFoundServer exState none none none (some "Accepted") none
        none none none none).calls
      = [.httpGet (exState.server ++ "/" ++ "patches" ++ "/" ++ "?"
          ++ urlencode [("state", slugify "Accepted")])] :=
  C4_state_filter_asymmetry c4witnessClient [⟨1, "New"⟩] [] rfl (by decide)
    notFoundServer exState

/-- C6: a resource-oriented hash lookup (`patch_get_by_hash` or
`patch_get_by_project_hash`) matching zero or two-or-more patches returns
the empty record, and hash-based patch-id resolution then treats it
exactly like the legacy empty response: it writes "No patch has the hash
provided" to standard error and exits with status 1. -/
theorem C6_ambiguous_hash_fatal (srv : HttpServer) (st : RESTState)
    (project hash : String) (ps qs : List JVal) (hdrs₁ hdrs₂ : List (String × String))
    (hph : srv (st.server ++ "/" ++ "patches" ++ "/" ++ "?"
        ++ urlencode [("project", project), ("hash", hash)])
      = .ok (.arr ps) hdrs₁)
    (hn : ps.length ≠ 1)
    (hh : srv (st.server ++ "/" ++ "patches" ++ "/" ++ "?" ++ urlencode [("hash", hash)])
      = .ok (.arr qs) hdrs₂)
    (hqn : qs.length ≠ 1) :
    (REST.patch_get_by_project_hash srv st project hash).result = .ok (.obj [])
    ∧ (REST.patch_get_by_hash srv st hash).result = .ok (.obj [])
    ∧ patch_id_from_hash (REST.patch_get_by_project_hash srv st)
        (REST.patch_get_by_hash srv st) project hash
      = ⟨["No patch has the hash provided\n"],
          [.httpGet (st.server ++ "/" ++ "patches" ++ "/" ++ "?"
            ++ urlencode [("project", project), ("hash", hash)])],
          .error (.exit 1)⟩ := by
  have hx : REST.patch_get_by_project_hash srv st project hash
      = ⟨[], [.httpGet (st.server ++ "/" ++ "patches" ++ "/" ++ "?"
          ++ urlencode [("project", project), ("hash", hash)])], .ok (.obj [])⟩ := by
    unfold REST.patch_get_by_project_hash REST._list REST._get
    simp [truthyI, hph, json_loads, JVal.pyLen, hn]
  have hy : REST.patch_get_by_hash srv st hash
      = ⟨[], [.httpGet (st.server ++ "/" ++ "patches" ++ "/" ++ "?"
          ++ urlencode [("hash", hash)])], .ok (.obj [])⟩ := by
    unfold REST.patch_get_by_hash REST._list REST._get
    simp [truthyI, hh, json_loads, JVal.pyLen, hqn]
  refine ⟨by rw [hx], by rw [hy], ?_⟩
  unfold patch_id_from_hash PyM.catchFault
  rw [hx]
  simp [JVal.isEmptyDict]

/-- Witness for C6 at a server that returns two matches for every hash
query. -/
theorem C6_witness :
    (REST.patch_get_by_project_hash twoMatchServer exState "p" "h").result = .ok (.obj [])
    ∧ (REST.patch_get_by_hash twoMatchServer exState "h").result = .ok (.obj [])
    ∧ patch_id_from_hash (REST.patch_get_by_project_hash twoMatchServer exState)
        (REST.patch_get_by_hash twoMatchServer exState) "p" "h"
      = ⟨["No patch has the hash provided\n"],
          [.httpGet (exState.server ++ "/" ++ "patches" ++ "/" ++ "?"
            ++ urlencode [("project", "p"), ("hash", "h")])],
          .error (.exit 1)⟩ :=
  C6_ambiguous_hash_fatal twoMatchServer exState "p" "h"
    [.obj [("id", .int 5)], .obj [("id", .int 6)]]
    [.obj [("id", .int 5)], .obj [("id", .int 6)]] [] [] rfl (by decide) rfl (by decide)

/-- C10: `REST.project_list` and `REST.person_list` raise
`NotImplementedError` whenever the search string is non-empty or the
count bound is non-zero, before issuing any network request; legacy-style
exact-match project resolution, which passes the linkname as the search
string, therefore fails with that error against the resource-oriented
backend for every non-empty linkname. -/
theorem C10_rest_list_unsupported (srv : HttpServer) (st : RESTState)
    (search_str : Option String) (max_count : Int) (linkname : String)
    (h : truthyS search_str = true ∨ max_count ≠ 0) (hl : linkname ≠ "") :
    ((REST.project_list srv st search_str max_count).calls = []
      ∧ ∃ msg, (REST.project_list srv st search_str max_count).result
        = .error (.notImplementedError msg))
    ∧ ((REST.person_list srv st search_str max_count).calls = []
      ∧ ∃ msg, (REST.person_list srv st search_str max_count).result
        = .error (.notImplementedError msg))
    ∧ project_id_by_name (REST.project_list srv st) linkname
      = ⟨[], [], .error (.notImplementedError "The search_str parameter is not supported")⟩ := by
  have hlen : ¬ linkname.length = 0 := fun hc => hl (string_length_eq_zero_iff.mp hc)
  have hts : truthyS (some linkname) = true := by
    simp [truthyS, hl]
  refine ⟨?_, ?_, ?_⟩
  · cases hts0 : truthyS search_str with
    | true => simp [REST.project_list, hts0]
    | false =>
      have hmc : max_count ≠ 0 := by
        rcases h with h | h
        · rw [hts0] at h
          exact absurd h (by decide)
        · exact h
      simp [REST.project_list, hts0, hmc]
  · cases hts0 : truthyS search_str with
    | true => simp [REST.person_list, hts0]
    | false =>
      have hmc : max_count ≠ 0 := by
        rcases h with h | h
        · rw [hts0] at h
          exact absurd h (by decide)
        · exact h
      simp [REST.person_list, hts0, hmc]
  · unfold project_id_by_name
    rw [if_neg hlen]
    simp [REST.project_list, hts]

/-- Witness for C10 at a concrete search string and linkname. -/
theorem C10_witness :
    ((REST.project_list notFoundServer exState (some "patchwork") 0).calls = []
      ∧ ∃ msg, (REST.project_list notFoundServer exState (some "patchwork") 0).result
        = .error (.notImplementedError msg))
    ∧ ((REST.person_list notFoundServer exState (some "patchwork") 0).calls = []
      ∧ ∃ msg, (REST.person_list notFoundServer exState (some "patchwork") 0).result
        = .error (.notImplementedError msg))
    ∧ project_id_by_name (REST.project_list notFoundServer exState) "patchwork"
      = ⟨[], [], .error (.notImplementedError "The search_str parameter is not supported")⟩ :=
  C10_rest_list_unsupported notFoundServer exState (some "patchwork") 0 "patchwork"
    (Or.inl (by decide)) (by decide)

end Pwclient
